import Mathlib

set_option linter.unusedVariables false

/-!
Verification of the Taper repository's deterministic Three.js code
synthesizer (`train_3d_ai.py`) and the prompt-gateway decision logic of
its HTTP server (`server.py`).

The Python code is shallowly embedded: dictionaries become ordered
association lists (Python dicts preserve insertion order and the code
iterates them in that order), f-string templates become explicit string
concatenation (brace characters in generated JavaScript are written with
the `\x7b` / `\x7d` escapes), and the six validation regular expressions
become token lists over an explicit backtracking matcher (the patterns
only use literal characters, `\s+` and `\s*`).
-/

namespace Taper

/-- Association-list lookup with a default, mirroring Python's
`dict.get(key, default)` (the embedded tables have pairwise distinct
keys, so first-match lookup agrees with dict lookup). -/
def getD : List (String × String) → String → String → String
  | [], _, d => d
  | kv :: t, k, d => if kv.1 == k then kv.2 else getD t k d

/-- The `self.geometries` table: shape key to geometry kind. -/
def geometries : List (String × String) :=
  [("sphere", "SphereGeometry"),
   ("cube", "BoxGeometry"),
   ("cylinder", "CylinderGeometry"),
   ("cone", "ConeGeometry"),
   ("torus", "TorusGeometry"),
   ("plane", "PlaneGeometry"),
   ("ring", "RingGeometry"),
   ("dodecahedron", "DodecahedronGeometry"),
   ("icosahedron", "IcosahedronGeometry"),
   ("octahedron", "OctahedronGeometry"),
   ("tetrahedron", "TetrahedronGeometry")]

/-- The `self.materials` table (present in the source, unused by the
synthesis paths). -/
def materials : List (String × String) :=
  [("standard", "MeshStandardMaterial"),
   ("physical", "MeshPhysicalMaterial"),
   ("basic", "MeshBasicMaterial"),
   ("lambert", "MeshLambertMaterial"),
   ("phong", "MeshPhongMaterial")]

/-- The `self.colors` table: color key to 24-bit hex literal string. -/
def colors : List (String × String) :=
  [("red", "0xff0000"),
   ("green", "0x00ff00"),
   ("blue", "0x0000ff"),
   ("yellow", "0xffff00"),
   ("purple", "0x800080"),
   ("orange", "0xffa500"),
   ("pink", "0xffc0cb"),
   ("cyan", "0x00ffff"),
   ("gold", "0xffd700"),
   ("silver", "0xc0c0c0")]

/-- The `params` table local to `generate_code_template`. -/
def basic_params : List (String × String) :=
  [("SphereGeometry", "1.5, 32, 32"),
   ("BoxGeometry", "2, 2, 2"),
   ("CylinderGeometry", "1, 1, 3, 32"),
   ("ConeGeometry", "1.5, 3, 8"),
   ("TorusGeometry", "1.5, 0.5, 16, 100"),
   ("PlaneGeometry", "3, 3"),
   ("RingGeometry", "0.5, 1.5, 32"),
   ("DodecahedronGeometry", "1.5"),
   ("IcosahedronGeometry", "1.5"),
   ("OctahedronGeometry", "1.5"),
   ("TetrahedronGeometry", "1.5")]

/-- Geometry-parameter resolution of the basic path:
`params.get(geometry, '1, 1, 1')` in `generate_code_template`. -/
def resolve_basic_params (geometry : String) : String :=
  getD basic_params geometry "1, 1, 1"

/-- The `animations` table local to `generate_code_template`. -/
def basic_animations : List (String × String) :=
  [("sphere", "object.rotation.y += 0.02; object.position.y = Math.sin(Date.now() * 0.001) * 0.3;"),
   ("cube", "object.rotation.x += 0.01; object.rotation.y += 0.01; object.rotation.z += 0.005;"),
   ("cylinder", "object.rotation.y += 0.02; object.position.y = Math.sin(Date.now() * 0.001) * 0.2;"),
   ("cone", "object.rotation.y += 0.015; object.position.y = Math.sin(Date.now() * 0.0015) * 0.4;"),
   ("torus", "object.rotation.x += 0.01; object.rotation.y += 0.02;")]

/-- The animation-hook assignment shared by both templates: the tail of
each f-string from `object.userData.animate` on. -/
def animate_hook (animation : String) : String :=
  "object.userData.animate = () => \x7b \n    " ++ animation ++ "\n\x7d;"

/-- The common tail of both f-string templates, from the
`const object = ...` line on. -/
def object_tail (animation : String) : String :=
  "const object = new THREE.Mesh(geometry, material);\nobject.castShadow = true;\nobject.receiveShadow = true;\n"
    ++ animate_hook animation

/-- `ThreeJSTrainer.generate_code_template`: the basic-path f-string,
including its trailing spaces before line breaks.  The `color_name`
argument is accepted and unused, exactly as in the source. -/
def generate_code_template (shape geometry color color_name : String) : String :=
  let param := resolve_basic_params geometry
  let animation := getD basic_animations shape
    "object.rotation.x += 0.01; object.rotation.y += 0.01;"
  "const geometry = new THREE." ++ geometry ++ "(" ++ param
    ++ ");\nconst material = new THREE.MeshStandardMaterial(\x7b \n    color: "
    ++ color ++ ", \n    metalness: 0.3, \n    roughness: 0.4 \n\x7d);\n"
    ++ object_tail animation

/-- The `params` table local to `generate_advanced_code` (only six
geometry kinds). -/
def advanced_params : List (String × String) :=
  [("SphereGeometry", "1.5, 32, 32"),
   ("BoxGeometry", "2, 2, 2"),
   ("CylinderGeometry", "1, 1, 3, 32"),
   ("ConeGeometry", "1.5, 3, 8"),
   ("TorusGeometry", "1.5, 0.5, 16, 100"),
   ("OctahedronGeometry", "1.5")]

/-- The if/elif chain of `generate_advanced_code` selecting the material
expression and the animation string from the effect tag. -/
def advanced_strategy (color effect : String) : String × String :=
  if effect == "metallic" then
    ("new THREE.MeshStandardMaterial(\x7b color: " ++ color ++ ", metalness: 0.9, roughness: 0.1 \x7d)",
     "object.rotation.y += 0.02; object.material.metalness = 0.9 + Math.sin(Date.now() * 0.002) * 0.1;")
  else if effect == "emissive" then
    ("new THREE.MeshStandardMaterial(\x7b color: " ++ color ++ ", emissive: " ++ color ++ ", emissiveIntensity: 0.3 \x7d)",
     "object.rotation.x += 0.01; object.rotation.y += 0.01; object.material.emissiveIntensity = 0.3 + Math.sin(Date.now() * 0.003) * 0.2;")
  else if effect == "floating" then
    ("new THREE.MeshStandardMaterial(\x7b color: " ++ color ++ ", metalness: 0.2, roughness: 0.8 \x7d)",
     "object.rotation.y += 0.01; object.position.y = Math.sin(Date.now() * 0.001) * 1.5;")
  else if effect == "pulsing" then
    ("new THREE.MeshStandardMaterial(\x7b color: " ++ color ++ ", metalness: 0.5, roughness: 0.3 \x7d)",
     "object.rotation.x += 0.005; object.rotation.y += 0.01; object.scale.setScalar(1 + Math.sin(Date.now() * 0.003) * 0.3);")
  else if effect == "rainbow" then
    ("new THREE.MeshStandardMaterial(\x7b color: " ++ color ++ ", metalness: 0.3, roughness: 0.4 \x7d)",
     "object.rotation.y += 0.02; const time = Date.now() * 0.001; object.material.color.setHSL((time * 0.2) % 1, 0.8, 0.5);")
  else if effect == "glass" then
    ("new THREE.MeshPhysicalMaterial(\x7b color: " ++ color ++ ", transmission: 0.9, opacity: 0.1, transparent: true, roughness: 0.0, metalness: 0.0 \x7d)",
     "object.rotation.x += 0.005; object.rotation.y += 0.01; object.position.y = Math.sin(Date.now() * 0.001) * 0.2;")
  else if effect == "wood" then
    ("new THREE.MeshStandardMaterial(\x7b color: " ++ color ++ ", metalness: 0.0, roughness: 0.9 \x7d)",
     "object.rotation.y += 0.01;")
  else if effect == "crystal" then
    ("new THREE.MeshPhysicalMaterial(\x7b color: " ++ color ++ ", transmission: 0.7, opacity: 0.3, transparent: true, roughness: 0.0, metalness: 0.1, clearcoat: 1.0 \x7d)",
     "object.rotation.x += 0.01; object.rotation.y += 0.015; object.rotation.z += 0.005;")
  else if effect == "plasma" then
    ("new THREE.MeshStandardMaterial(\x7b color: " ++ color ++ ", emissive: " ++ color ++ ", emissiveIntensity: 0.5 \x7d)",
     "object.rotation.y += 0.03; const time = Date.now() * 0.001; object.material.emissiveIntensity = 0.5 + Math.sin(time * 2) * 0.3; object.material.color.setHSL((time * 0.5) % 1, 1, 0.5);")
  else
    ("new THREE.MeshStandardMaterial(\x7b color: " ++ color ++ ", metalness: 0.3, roughness: 0.4 \x7d)",
     "object.rotation.x += 0.01; object.rotation.y += 0.01;")

/-- `ThreeJSTrainer.generate_advanced_code`: the advanced-path f-string.
The `shape` argument is accepted and unused, exactly as in the source. -/
def generate_advanced_code (shape geometry color effect : String) : String :=
  let param := getD advanced_params geometry "1, 1, 1"
  let ma := advanced_strategy color effect
  "const geometry = new THREE." ++ geometry ++ "(" ++ param
    ++ ");\nconst material = " ++ ma.1 ++ ";\n"
    ++ object_tail ma.2

/-- Python's `\s` whitespace class over the ASCII characters occurring
here: space, tab, newline, carriage return, vertical tab, form feed. -/
def isWS (c : Char) : Bool :=
  c == ' ' || c == '\t' || c == '\n' || c == '\r' || c.toNat == 11 || c.toNat == 12

/-- One token of a validation pattern: a literal character, `\s*`, or
`\s+` — the only regex constructs used by `validate_generated_code`. -/
inductive Tok where
  | lit : Char → Tok
  | ws0 : Tok
  | ws1 : Tok
deriving DecidableEq, Repr

/-- Fuel-indexed backtracking match of a token pattern against a prefix
of the character list (the pattern need not consume the whole list, as
with `re.search` anchored at one position).  Every recursive call
strictly decreases `ps.length + cs.length`, so any fuel above that sum
gives the fuel-free semantics; structural recursion on the fuel keeps
the definition kernel-reducible. -/
def matchTokF : Nat → List Tok → List Char → Bool
  | 0, _, _ => false
  | _ + 1, [], _ => true
  | _ + 1, Tok.lit _ :: _, [] => false
  | f + 1, Tok.lit c :: ps, d :: cs => c == d && matchTokF f ps cs
  | f + 1, Tok.ws0 :: ps, [] => matchTokF f ps []
  | f + 1, Tok.ws0 :: ps, d :: cs =>
      matchTokF f ps (d :: cs) || (isWS d && matchTokF f (Tok.ws0 :: ps) cs)
  | _ + 1, Tok.ws1 :: _, [] => false
  | f + 1, Tok.ws1 :: ps, d :: cs => isWS d && matchTokF f (Tok.ws0 :: ps) cs

/-- Match with always-sufficient fuel. -/
def matchTok (ps : List Tok) (cs : List Char) : Bool :=
  matchTokF (ps.length + cs.length + 1) ps cs

/-- `re.search` over the embedded patterns: does the pattern match at
some position of the list? -/
def searchTok (p : List Tok) : List Char → Bool
  | [] => matchTok p []
  | c :: cs => matchTok p (c :: cs) || searchTok p cs

/-- Literal characters of a string as pattern tokens. -/
def litsOf (s : String) : List Tok := s.data.map Tok.lit

/-- Pattern `const\s+geometry\s*=\s*new\s+THREE\.` -/
def pat_geometry : List Tok :=
  litsOf "const" ++ [Tok.ws1] ++ litsOf "geometry" ++ [Tok.ws0, Tok.lit '=', Tok.ws0]
    ++ litsOf "new" ++ [Tok.ws1] ++ litsOf "THREE."

/-- Pattern `const\s+material\s*=\s*new\s+THREE\.` -/
def pat_material : List Tok :=
  litsOf "const" ++ [Tok.ws1] ++ litsOf "material" ++ [Tok.ws0, Tok.lit '=', Tok.ws0]
    ++ litsOf "new" ++ [Tok.ws1] ++ litsOf "THREE."

/-- Pattern `const\s+object\s*=\s*new\s+THREE\.Mesh` -/
def pat_mesh : List Tok :=
  litsOf "const" ++ [Tok.ws1] ++ litsOf "object" ++ [Tok.ws0, Tok.lit '=', Tok.ws0]
    ++ litsOf "new" ++ [Tok.ws1] ++ litsOf "THREE.Mesh"

/-- Pattern `object\.castShadow\s*=\s*true` -/
def pat_castShadow : List Tok :=
  litsOf "object.castShadow" ++ [Tok.ws0, Tok.lit '=', Tok.ws0] ++ litsOf "true"

/-- Pattern `object\.receiveShadow\s*=\s*true` -/
def pat_receiveShadow : List Tok :=
  litsOf "object.receiveShadow" ++ [Tok.ws0, Tok.lit '=', Tok.ws0] ++ litsOf "true"

/-- Pattern `object\.userData\.animate\s*=` -/
def pat_animate : List Tok :=
  litsOf "object.userData.animate" ++ [Tok.ws0, Tok.lit '=']

/-- The `required_patterns` list of `validate_generated_code`, in source
order. -/
def required_patterns : List (List Tok) :=
  [pat_geometry, pat_material, pat_mesh, pat_castShadow, pat_receiveShadow, pat_animate]

/-- `ThreeJSTrainer.validate_generated_code`: true iff every required
pattern matches somewhere in the code (the Python loop returns `False`
on the first failing pattern; `List.all` computes the same value). -/
def validate_generated_code (code : String) : Bool :=
  required_patterns.all (fun p => searchTok p code.data)

/-- One generated training example: the dict
`\x7bprompt, code, category\x7d` appended by
`generate_training_examples`. -/
structure Example where
  prompt : String
  code : String
  category : String
deriving DecidableEq, Repr

/-- The `complex_objects` list of `generate_training_examples`:
(prompt, shape, color, effect) tuples in source order. -/
def complex_objects : List (String × String × String × String) :=
  [("spinning golden sphere", "sphere", "0xffd700", "metallic"),
   ("glowing blue cube", "cube", "0x0000ff", "emissive"),
   ("floating red cylinder", "cylinder", "0xff0000", "floating"),
   ("pulsing green torus", "torus", "0x00ff00", "pulsing"),
   ("rotating rainbow cone", "cone", "0xff0000", "rainbow"),
   ("transparent glass sphere", "sphere", "0x88ccff", "glass"),
   ("metallic silver cube", "cube", "0xc0c0c0", "metallic"),
   ("wooden brown cylinder", "cylinder", "0x8b4513", "wood"),
   ("crystal clear diamond", "octahedron", "0xffffff", "crystal"),
   ("glowing plasma ball", "sphere", "0xff00ff", "plasma")]

/-- One iteration of the basic-shapes loop body. -/
def mk_basic_example (sg cc : String × String) : Example :=
  { prompt := "Create a " ++ cc.1 ++ " " ++ sg.1
    code := generate_code_template sg.1 sg.2 cc.2 cc.1
    category := "basic_shapes" }

/-- One iteration of the complex-objects loop body, including the
`self.geometries.get(shape, 'BoxGeometry')` lookup. -/
def mk_advanced_example (co : String × String × String × String) : Example :=
  { prompt := co.1
    code := generate_advanced_code co.2.1 (getD geometries co.2.1 "BoxGeometry") co.2.2.1 co.2.2.2
    category := "advanced_objects" }

/-- `ThreeJSTrainer.generate_training_examples`: the shape-major /
color-minor cross product, then the curated complex-objects list. -/
def generate_training_examples : List Example :=
  geometries.flatMap (fun sg => colors.map (fun cc => mk_basic_example sg cc))
    ++ complex_objects.map mk_advanced_example

/-- One chat message of a fine-tuning record. -/
structure Message where
  role : String
  content : String
deriving DecidableEq, Repr

/-- One line of the fine-tuning dataset built in `main`. -/
structure FineTuneRecord where
  messages : List Message
deriving DecidableEq, Repr

/-- The fixed system message used by `main`. -/
def system_content : String :=
  "You are an expert Three.js developer. Generate only clean JavaScript code without any markdown formatting, comments, or explanations."

/-- The record `main` appends to `fine_tune_data` for one example. -/
def to_fine_tune_record (e : Example) : FineTuneRecord :=
  { messages :=
      [{ role := "system", content := system_content },
       { role := "user", content := "Create Three.js code for: " ++ e.prompt },
       { role := "assistant", content := e.code }] }

/-- The `fine_tune_data` list built in `main` over the generated
examples. -/
def fine_tune_data : List FineTuneRecord :=
  generate_training_examples.map to_fine_tune_record

/-- Outcome of one `/api/generate` request after the body has been
parsed: either an HTTP error sent by `send_error` (status code and
message), or the pending call to the generative model with the enhanced
prompt — the only constructor that represents network access. -/
inductive HandlerOutcome where
  | httpError : Nat → String → HandlerOutcome
  | modelCall : String → HandlerOutcome
deriving DecidableEq, Repr

/-- `TapeServerHandler.create_enhanced_prompt`: the fixed instruction
template wrapped around the user prompt. -/
def create_enhanced_prompt (user_prompt : String) : String :=
  "\n        You are an expert Three.js developer. Generate ONLY JavaScript code to create a 3D object.\n        \n        REQUIREMENTS:\n        - The final object/group MUST be assigned to a variable named \x27object\x27\n        - Add an \x27animate\x27 function to \x27object.userData\x27 for smooth animation\n        - Use appropriate Three.js geometries, materials, and groups\n        - Include realistic materials with proper metalness, roughness, and color\n        - Add shadows with \x27castShadow = true\x27 and \x27receiveShadow = true\x27\n        - Create interesting animations (rotation, scaling, position changes)\n        - Use advanced materials like MeshStandardMaterial or MeshPhysicalMaterial\n        \n        DO NOT INCLUDE:\n        - Scene, camera, renderer, or lighting setup\n        - Import statements or external dependencies\n        - Markdown backticks or code blocks\n        - Comments or explanations\n        \n        User request: \"" ++ user_prompt ++ "\"\n        \n        Generate the code:\n        "

/-- Model-client initialization in `TapeServerHandler.__init__`:
`self.model` is a `GenerativeModel` exactly when `GEMINI_API_KEY` is set
and non-empty (Python truthiness of the `os.getenv` result). -/
def init_model (gemini_api_key : Option String) : Option String :=
  if gemini_api_key.getD "" == "" then none else some "gemini-1.5-flash"

/-- `TapeServerHandler.handle_generate_request` after a successful JSON
parse of the body: `request_prompt` is the body's `prompt` field (absent
field modelled as `none`, matching `request_data.get('prompt', '')`). -/
def handle_generate_request (model : Option String) (request_prompt : Option String) :
    HandlerOutcome :=
  let prompt := request_prompt.getD ""
  if prompt == "" then HandlerOutcome.httpError 400 "Prompt is required"
  else if model.isNone then HandlerOutcome.httpError 500 "Gemini API not configured"
  else HandlerOutcome.modelCall (create_enhanced_prompt prompt)

/-- Does the first list occur as a prefix of the second? -/
def firstAt : List Char → List Char → Bool
  | [], _ => true
  | _ :: _, [] => false
  | c :: t, d :: s => c == d && firstAt t s

/-- Does the first list occur as a contiguous sublist of the second? -/
def scanHas (t : List Char) : List Char → Bool
  | [] => firstAt t []
  | c :: s => firstAt t (c :: s) || scanHas t s

/-- Number of positions of the second list at which the first occurs
(occurrences may overlap; a non-empty pattern never matches at the end
position, so all positions are covered). -/
def countOcc (t : List Char) : List Char → Nat
  | [] => 0
  | c :: s => (if firstAt t (c :: s) then 1 else 0) + countOcc t s

/-- Substring containment on strings. -/
def strHasB (t s : String) : Bool := scanHas t.data s.data

/-- The nine effect tags recognized by the if/elif chain of
`generate_advanced_code`, in source order. -/
def effect_tags : List String :=
  ["metallic", "emissive", "floating", "pulsing", "rainbow", "glass", "wood", "crystal", "plasma"]

/-- The default strategy of the else-branch of `generate_advanced_code`:
standard material with metalness 0.3 and roughness 0.4, and dual-axis
rotation. -/
def default_strategy (color : String) : String × String :=
  ("new THREE.MeshStandardMaterial(\x7b color: " ++ color ++ ", metalness: 0.3, roughness: 0.4 \x7d)",
   "object.rotation.x += 0.01; object.rotation.y += 0.01;")

/-- The fragment generated for shape `sphere` and color `gold`. -/
def sphere_gold_fragment : String :=
  generate_code_template "sphere" "SphereGeometry" "0xffd700" "gold"

/-- The sphere/gold fragment with the geometry statement removed. -/
def frag_no_geometry : String :=
  "const material = new THREE.MeshStandardMaterial(\x7b \n    color: 0xffd700, \n    metalness: 0.3, \n    roughness: 0.4 \n\x7d);\nconst object = new THREE.Mesh(geometry, material);\nobject.castShadow = true;\nobject.receiveShadow = true;\nobject.userData.animate = () => \x7b \n    object.rotation.y += 0.02; object.position.y = Math.sin(Date.now() * 0.001) * 0.3;\n\x7d;"

/-- The sphere/gold fragment with the material statement removed. -/
def frag_no_material : String :=
  "const geometry = new THREE.SphereGeometry(1.5, 32, 32);\nconst object = new THREE.Mesh(geometry, material);\nobject.castShadow = true;\nobject.receiveShadow = true;\nobject.userData.animate = () => \x7b \n    object.rotation.y += 0.02; object.position.y = Math.sin(Date.now() * 0.001) * 0.3;\n\x7d;"

/-- The sphere/gold fragment with the mesh-construction statement
removed. -/
def frag_no_mesh : String :=
  "const geometry = new THREE.SphereGeometry(1.5, 32, 32);\nconst material = new THREE.MeshStandardMaterial(\x7b \n    color: 0xffd700, \n    metalness: 0.3, \n    roughness: 0.4 \n\x7d);\nobject.castShadow = true;\nobject.receiveShadow = true;\nobject.userData.animate = () => \x7b \n    object.rotation.y += 0.02; object.position.y = Math.sin(Date.now() * 0.001) * 0.3;\n\x7d;"

/-- The sphere/gold fragment with the castShadow assignment removed. -/
def frag_no_castShadow : String :=
  "const geometry = new THREE.SphereGeometry(1.5, 32, 32);\nconst material = new THREE.MeshStandardMaterial(\x7b \n    color: 0xffd700, \n    metalness: 0.3, \n    roughness: 0.4 \n\x7d);\nconst object = new THREE.Mesh(geometry, material);\nobject.receiveShadow = true;\nobject.userData.animate = () => \x7b \n    object.rotation.y += 0.02; object.position.y = Math.sin(Date.now() * 0.001) * 0.3;\n\x7d;"

/-- The sphere/gold fragment with the receiveShadow assignment
removed. -/
def frag_no_receiveShadow : String :=
  "const geometry = new THREE.SphereGeometry(1.5, 32, 32);\nconst material = new THREE.MeshStandardMaterial(\x7b \n    color: 0xffd700, \n    metalness: 0.3, \n    roughness: 0.4 \n\x7d);\nconst object = new THREE.Mesh(geometry, material);\nobject.castShadow = true;\nobject.userData.animate = () => \x7b \n    object.rotation.y += 0.02; object.position.y = Math.sin(Date.now() * 0.001) * 0.3;\n\x7d;"

/-- The sphere/gold fragment with the animation-hook assignment
removed. -/
def frag_no_animate : String :=
  "const geometry = new THREE.SphereGeometry(1.5, 32, 32);\nconst material = new THREE.MeshStandardMaterial(\x7b \n    color: 0xffd700, \n    metalness: 0.3, \n    roughness: 0.4 \n\x7d);\nconst object = new THREE.Mesh(geometry, material);\nobject.castShadow = true;\nobject.receiveShadow = true;"

theorem data_append (s t : String) : (s ++ t).data = s.data ++ t.data := by
  cases s with
  | mk l => cases t with
    | mk m => rfl

theorem firstAt_append (t s r : List Char) (h : firstAt t s = true) :
    firstAt t (s ++ r) = true := by
  induction t generalizing s with
  | nil => simp [firstAt]
  | cons c t ih =>
    cases s with
    | nil => simp [firstAt] at h
    | cons d s =>
      rw [List.cons_append]
      simp only [firstAt, Bool.and_eq_true] at h ⊢
      exact ⟨h.1, ih s h.2⟩

theorem firstAt_refl_append (t r : List Char) : firstAt t (t ++ r) = true := by
  induction t with
  | nil => simp [firstAt]
  | cons c t ih => simp [firstAt, ih]

theorem firstAt_refl (t : List Char) : firstAt t t = true := by
  have h := firstAt_refl_append t []
  rwa [List.append_nil] at h

theorem scanHas_of_firstAt (t s : List Char) (h : firstAt t s = true) :
    scanHas t s = true := by
  cases s with
  | nil => simpa [scanHas] using h
  | cons c s => simp [scanHas, h]

theorem scanHas_append_left (t l s : List Char) (h : scanHas t s = true) :
    scanHas t (l ++ s) = true := by
  induction l with
  | nil => simpa using h
  | cons c l ih => simp [scanHas, ih]

theorem scanHas_append_right (t s r : List Char) (h : scanHas t s = true) :
    scanHas t (s ++ r) = true := by
  induction s with
  | nil =>
    cases t with
    | nil => exact scanHas_of_firstAt _ _ (by simp [firstAt])
    | cons c t => simp [scanHas, firstAt] at h
  | cons d s ih =>
    rw [List.cons_append]
    simp only [scanHas, Bool.or_eq_true] at h ⊢
    rcases h with h | h
    · exact Or.inl (firstAt_append t (d :: s) r h)
    · exact Or.inr (ih h)

/-- Containment of a fixed substring located in the final chunk of a
left-associated string concatenation. -/
theorem strHasB_suffix (t x b : String) (h : scanHas t.data b.data = true) :
    strHasB t (x ++ b) = true := by
  unfold strHasB
  rw [data_append]
  exact scanHas_append_left _ _ _ h

/-- Containment of a substring of the fixed head of `object_tail`
inside any fragment of the form `pre ++ object_tail anim`. -/
theorem strHasB_mid_tail (t pre anim : String)
    (h : scanHas t.data ("const object = new THREE.Mesh(geometry, material);\nobject.castShadow = true;\nobject.receiveShadow = true;\n" : String).data = true) :
    strHasB t (pre ++ object_tail anim) = true := by
  unfold strHasB
  simp only [object_tail, data_append]
  exact scanHas_append_left _ _ _ (scanHas_append_right _ _ _ h)

/-- Every fragment of the form `pre ++ object_tail anim` contains the
full animation-hook assignment with body `anim`. -/
theorem strHasB_hook_tail (pre anim : String) :
    strHasB (animate_hook anim) (pre ++ object_tail anim) = true := by
  unfold strHasB
  simp only [object_tail, data_append]
  rw [← List.append_assoc]
  exact scanHas_append_left _ _ _ (scanHas_of_firstAt _ _ (firstAt_refl _))

theorem getD_of_not_mem (t : List (String × String)) (k d : String)
    (h : k ∉ t.map Prod.fst) : getD t k d = d := by
  induction t with
  | nil => rfl
  | cons kv tl ih =>
    rw [List.map_cons, List.mem_cons] at h
    push_neg at h
    rw [getD, if_neg (by simp only [beq_iff_eq]; exact Ne.symm h.1)]
    exact ih h.2

theorem gct_decomp (shape geometry color color_name : String) :
    generate_code_template shape geometry color color_name =
      ("const geometry = new THREE." ++ geometry ++ "(" ++ resolve_basic_params geometry
        ++ ");\nconst material = new THREE.MeshStandardMaterial(\x7b \n    color: "
        ++ color ++ ", \n    metalness: 0.3, \n    roughness: 0.4 \n\x7d);\n")
      ++ object_tail (getD basic_animations shape
          "object.rotation.x += 0.01; object.rotation.y += 0.01;") := rfl

theorem gac_decomp (shape geometry color effect : String) :
    generate_advanced_code shape geometry color effect =
      ("const geometry = new THREE." ++ geometry ++ "(" ++ getD advanced_params geometry "1, 1, 1"
        ++ ");\nconst material = " ++ (advanced_strategy color effect).1 ++ ";\n")
      ++ object_tail (advanced_strategy color effect).2 := rfl

theorem advanced_strategy_metallic (color : String) :
    advanced_strategy color "metallic" =
      ("new THREE.MeshStandardMaterial(\x7b color: " ++ color ++ ", metalness: 0.9, roughness: 0.1 \x7d)",
       "object.rotation.y += 0.02; object.material.metalness = 0.9 + Math.sin(Date.now() * 0.002) * 0.1;") := rfl

theorem advanced_strategy_emissive (color : String) :
    advanced_strategy color "emissive" =
      ("new THREE.MeshStandardMaterial(\x7b color: " ++ color ++ ", emissive: " ++ color ++ ", emissiveIntensity: 0.3 \x7d)",
       "object.rotation.x += 0.01; object.rotation.y += 0.01; object.material.emissiveIntensity = 0.3 + Math.sin(Date.now() * 0.003) * 0.2;") := rfl

theorem advanced_strategy_floating (color : String) :
    advanced_strategy color "floating" =
      ("new THREE.MeshStandardMaterial(\x7b color: " ++ color ++ ", metalness: 0.2, roughness: 0.8 \x7d)",
       "object.rotation.y += 0.01; object.position.y = Math.sin(Date.now() * 0.001) * 1.5;") := rfl

theorem advanced_strategy_pulsing (color : String) :
    advanced_strategy color "pulsing" =
      ("new THREE.MeshStandardMaterial(\x7b color: " ++ color ++ ", metalness: 0.5, roughness: 0.3 \x7d)",
       "object.rotation.x += 0.005; object.rotation.y += 0.01; object.scale.setScalar(1 + Math.sin(Date.now() * 0.003) * 0.3);") := rfl

theorem advanced_strategy_rainbow (color : String) :
    advanced_strategy color "rainbow" =
      ("new THREE.MeshStandardMaterial(\x7b color: " ++ color ++ ", metalness: 0.3, roughness: 0.4 \x7d)",
       "object.rotation.y += 0.02; const time = Date.now() * 0.001; object.material.color.setHSL((time * 0.2) % 1, 0.8, 0.5);") := rfl

theorem advanced_strategy_glass (color : String) :
    advanced_strategy color "glass" =
      ("new THREE.MeshPhysicalMaterial(\x7b color: " ++ color ++ ", transmission: 0.9, opacity: 0.1, transparent: true, roughness: 0.0, metalness: 0.0 \x7d)",
       "object.rotation.x += 0.005; object.rotation.y += 0.01; object.position.y = Math.sin(Date.now() * 0.001) * 0.2;") := rfl

theorem advanced_strategy_wood (color : String) :
    advanced_strategy color "wood" =
      ("new THREE.MeshStandardMaterial(\x7b color: " ++ color ++ ", metalness: 0.0, roughness: 0.9 \x7d)",
       "object.rotation.y += 0.01;") := rfl

theorem advanced_strategy_crystal (color : String) :
    advanced_strategy color "crystal" =
      ("new THREE.MeshPhysicalMaterial(\x7b color: " ++ color ++ ", transmission: 0.7, opacity: 0.3, transparent: true, roughness: 0.0, metalness: 0.1, clearcoat: 1.0 \x7d)",
       "object.rotation.x += 0.01; object.rotation.y += 0.015; object.rotation.z += 0.005;") := rfl

theorem advanced_strategy_plasma (color : String) :
    advanced_strategy color "plasma" =
      ("new THREE.MeshStandardMaterial(\x7b color: " ++ color ++ ", emissive: " ++ color ++ ", emissiveIntensity: 0.5 \x7d)",
       "object.rotation.y += 0.03; const time = Date.now() * 0.001; object.material.emissiveIntensity = 0.5 + Math.sin(time * 2) * 0.3; object.material.color.setHSL((time * 0.5) % 1, 1, 0.5);") := rfl

set_option maxRecDepth 40000 in
/-- C3: `validate_generated_code` returns true iff all six structural
patterns (geometry statement, material statement, mesh construction,
castShadow assignment, receiveShadow assignment, animate-hook
assignment) match the fragment; and a fragment missing any one of the
six elements is rejected (shown on the sphere/gold fragment with each
element removed in turn). -/
theorem claim_C3 :
    (∀ code : String, validate_generated_code code = true ↔
      (searchTok pat_geometry code.data = true ∧ searchTok pat_material code.data = true ∧
       searchTok pat_mesh code.data = true ∧ searchTok pat_castShadow code.data = true ∧
       searchTok pat_receiveShadow code.data = true ∧ searchTok pat_animate code.data = true)) ∧
    validate_generated_code frag_no_geometry = false ∧
    validate_generated_code frag_no_material = false ∧
    validate_generated_code frag_no_mesh = false ∧
    validate_generated_code frag_no_castShadow = false ∧
    validate_generated_code frag_no_receiveShadow = false ∧
    validate_generated_code frag_no_animate = false := by
  refine ⟨fun code => ?_, by decide, by decide, by decide, by decide, by decide, by decide⟩
  simp [validate_generated_code, required_patterns, and_assoc]

/-- C4: every effect tag outside the nine recognized tags selects the
default strategy — a `MeshStandardMaterial` with metalness 0.3 and
roughness 0.4 and the dual-axis rotation animation.  The embedded
function is total, so no input raises an error. -/
theorem claim_C4 (color effect : String) (h : effect ∉ effect_tags) :
    advanced_strategy color effect = default_strategy color := by
  simp only [effect_tags, List.mem_cons, List.not_mem_nil, or_false, not_or] at h
  obtain ⟨h1, h2, h3, h4, h5, h6, h7, h8, h9⟩ := h
  rw [advanced_strategy, default_strategy]
  simp only [beq_iff_eq]
  rw [if_neg h1, if_neg h2, if_neg h3, if_neg h4, if_neg h5, if_neg h6, if_neg h7,
    if_neg h8, if_neg h9]

/-- Witness for C4 at a concrete unrecognized effect tag. -/
theorem claim_C4_witness :
    advanced_strategy "0x123456" "sparkle" = default_strategy "0x123456" :=
  claim_C4 "0x123456" "sparkle" (by decide)

/-- C5: geometry-parameter resolution of the basic path returns the
unit default `1, 1, 1` for every key outside the parameter table (total,
no error), and the table's own value for every key in it. -/
theorem claim_C5 :
    (∀ g : String, g ∉ basic_params.map Prod.fst → resolve_basic_params g = "1, 1, 1") ∧
    (∀ kv ∈ basic_params, resolve_basic_params kv.1 = kv.2) := by
  refine ⟨fun g hg => getD_of_not_mem _ _ _ hg, by decide⟩

/-- Witness for C5: an unknown key falls back to the unit default, a
known key resolves to its table value. -/
theorem claim_C5_witness :
    resolve_basic_params "TeapotGeometry" = "1, 1, 1" ∧
    resolve_basic_params "PlaneGeometry" = "3, 3" :=
  ⟨claim_C5.1 "TeapotGeometry" (by decide), claim_C5.2 ("PlaneGeometry", "3, 3") (by decide)⟩

/-- C6: for every recognized effect tag and any color literal, the
material expression selected by `generate_advanced_code` contains that
effect's distinguishing property; in particular glass contains a
transmission property and `transparent: true`, and metallic contains
`metalness: 0.9`. -/
theorem claim_C6 (color : String) :
    strHasB "metalness: 0.9" (advanced_strategy color "metallic").1 = true ∧
    strHasB "emissiveIntensity: 0.3" (advanced_strategy color "emissive").1 = true ∧
    strHasB "metalness: 0.2, roughness: 0.8" (advanced_strategy color "floating").1 = true ∧
    strHasB "metalness: 0.5, roughness: 0.3" (advanced_strategy color "pulsing").1 = true ∧
    strHasB "metalness: 0.3, roughness: 0.4" (advanced_strategy color "rainbow").1 = true ∧
    strHasB "transmission: 0.9" (advanced_strategy color "glass").1 = true ∧
    strHasB "transparent: true" (advanced_strategy color "glass").1 = true ∧
    strHasB "metalness: 0.0, roughness: 0.9" (advanced_strategy color "wood").1 = true ∧
    strHasB "transmission: 0.7" (advanced_strategy color "crystal").1 = true ∧
    strHasB "transparent: true" (advanced_strategy color "crystal").1 = true ∧
    strHasB "clearcoat: 1.0" (advanced_strategy color "crystal").1 = true ∧
    strHasB "emissiveIntensity: 0.5" (advanced_strategy color "plasma").1 = true := by
  rw [advanced_strategy_metallic, advanced_strategy_emissive, advanced_strategy_floating,
    advanced_strategy_pulsing, advanced_strategy_rainbow, advanced_strategy_glass,
    advanced_strategy_wood, advanced_strategy_crystal, advanced_strategy_plasma]
  exact ⟨strHasB_suffix _ _ _ (by decide), strHasB_suffix _ _ _ (by decide),
    strHasB_suffix _ _ _ (by decide), strHasB_suffix _ _ _ (by decide),
    strHasB_suffix _ _ _ (by decide), strHasB_suffix _ _ _ (by decide),
    strHasB_suffix _ _ _ (by decide), strHasB_suffix _ _ _ (by decide),
    strHasB_suffix _ _ _ (by decide), strHasB_suffix _ _ _ (by decide),
    strHasB_suffix _ _ _ (by decide), strHasB_suffix _ _ _ (by decide)⟩

/-- C8: the fine-tune record list has exactly one record per generated
example in the same order, and the assistant-role message content of
record `i` is exactly example `i`'s code field. -/
theorem claim_C8 :
    fine_tune_data.length = generate_training_examples.length ∧
    ∀ i : Nat,
      ((fine_tune_data[i]?.bind fun r => r.messages[2]?).map Message.content) =
        (generate_training_examples[i]?.map Example.code) := by
  constructor
  · simp [fine_tune_data]
  · intro i
    unfold fine_tune_data
    rw [List.getElem?_map]
    cases generate_training_examples[i]? with
    | none => rfl
    | some e => rfl

/-- C9: after the body parse, an absent or empty prompt yields the 400
client error and a non-empty prompt with no configured model yields the
500 configuration error; in both cases the outcome is an `httpError`,
not the `modelCall` constructor, so it is decided before any network
access. -/
theorem claim_C9 (model : Option String) (request_prompt : Option String) :
    ((request_prompt = none ∨ request_prompt = some "") →
       handle_generate_request model request_prompt = HandlerOutcome.httpError 400 "Prompt is required") ∧
    (∀ p : String, request_prompt = some p → p ≠ "" → model = none →
       handle_generate_request model request_prompt = HandlerOutcome.httpError 500 "Gemini API not configured") := by
  constructor
  · rintro (rfl | rfl) <;> rfl
  · rintro p rfl hp rfl
    simp [handle_generate_request, hp]

/-- Witness for C9: a missing prompt with a configured model, and a
concrete prompt with no model. -/
theorem claim_C9_witness :
    handle_generate_request (some "gemini-1.5-flash") none = HandlerOutcome.httpError 400 "Prompt is required" ∧
    handle_generate_request none (some "a red cube") = HandlerOutcome.httpError 500 "Gemini API not configured" :=
  ⟨(claim_C9 (some "gemini-1.5-flash") none).1 (Or.inl rfl),
   (claim_C9 none (some "a red cube")).2 "a red cube" rfl (by decide) rfl⟩

/-- C10: the advanced parameter table covers exactly the six geometry
kinds SphereGeometry, BoxGeometry, CylinderGeometry, ConeGeometry,
TorusGeometry and OctahedronGeometry, agreeing with the basic table
there; for the five shapes whose geometry kind is outside that set the
advanced path falls back to `1, 1, 1` while the basic path uses a
bespoke parameter string (for plane, `3, 3`). -/
theorem claim_C10 :
    advanced_params.map Prod.fst =
      ["SphereGeometry", "BoxGeometry", "CylinderGeometry", "ConeGeometry",
       "TorusGeometry", "OctahedronGeometry"] ∧
    (∀ kv ∈ advanced_params, getD basic_params kv.1 "1, 1, 1" = kv.2) ∧
    (∀ shape ∈ (["plane", "ring", "dodecahedron", "icosahedron", "tetrahedron"] : List String),
       getD advanced_params (getD geometries shape "BoxGeometry") "1, 1, 1" = "1, 1, 1" ∧
       getD basic_params (getD geometries shape "BoxGeometry") "1, 1, 1" ≠ "1, 1, 1") ∧
    getD basic_params (getD geometries "plane" "BoxGeometry") "1, 1, 1" = "3, 3" := by
  refine ⟨by decide, by decide, by decide, by decide⟩

/-- Witness for C10 at the plane shape. -/
theorem claim_C10_witness :
    getD advanced_params (getD geometries "plane" "BoxGeometry") "1, 1, 1" = "1, 1, 1" ∧
    getD basic_params (getD geometries "plane" "BoxGeometry") "1, 1, 1" ≠ "1, 1, 1" :=
  claim_C10.2.2.1 "plane" (by decide)

set_option maxRecDepth 100000 in
set_option maxHeartbeats 4000000 in
/-- C1: for every shape key in the geometry table and every color key
in the color table, the fragment produced by `generate_code_template`
passes `validate_generated_code`; and the sphere/gold fragment contains
the `SphereGeometry` construction with parameters 1.5, 32, 32, the gold
color literal `0xffd700`, both shadow-flag assignments and the
`userData.animate` assignment. -/
theorem claim_C1 :
    (∀ sg ∈ geometries, ∀ cc ∈ colors,
       validate_generated_code (generate_code_template sg.1 sg.2 cc.2 cc.1) = true) ∧
    strHasB "new THREE.SphereGeometry(1.5, 32, 32)" sphere_gold_fragment = true ∧
    strHasB "0xffd700" sphere_gold_fragment = true ∧
    strHasB "object.castShadow = true;" sphere_gold_fragment = true ∧
    strHasB "object.receiveShadow = true;" sphere_gold_fragment = true ∧
    strHasB "object.userData.animate =" sphere_gold_fragment = true := by
  refine ⟨by decide, by decide, by decide, by decide, by decide, by decide⟩

/-- Witness for C1 at shape sphere and color gold. -/
theorem claim_C1_witness :
    validate_generated_code (generate_code_template "sphere" "SphereGeometry" "0xffd700" "gold") = true :=
  claim_C1.1 ("sphere", "SphereGeometry") (by decide) ("gold", "0xffd700") (by decide)

set_option maxRecDepth 100000 in
set_option maxHeartbeats 4000000 in
/-- C2: the generated corpus is exactly 120 examples, the first 110
tagged `basic_shapes` and the last 10 tagged `advanced_objects`; entry
`10 * i + j` of the basic block is built from the `i`-th shape and
`j`-th color (shape-major, color-minor, table order), and entry
`110 + k` from the `k`-th curated complex object.  The embedding is a
pure function of the fixed tables, so repeated runs are definitionally
identical. -/
theorem claim_C2 :
    generate_training_examples.length = 120 ∧
    (generate_training_examples.take 110).all (fun e => e.category == "basic_shapes") = true ∧
    (generate_training_examples.drop 110).all (fun e => e.category == "advanced_objects") = true ∧
    (∀ i, i < 11 → ∀ j, j < 10 →
       generate_training_examples[10 * i + j]? =
         (geometries[i]?.bind fun sg => colors[j]?.map fun cc => mk_basic_example sg cc)) ∧
    (∀ k, k < 10 →
       generate_training_examples[110 + k]? = complex_objects[k]?.map mk_advanced_example) := by
  refine ⟨by decide, by decide, by decide, by decide, by decide⟩

/-- Witness for C2 at the first shape, last color and first complex
object. -/
theorem claim_C2_witness :
    generate_training_examples[8]? =
      (geometries[0]?.bind fun sg => colors[8]?.map fun cc => mk_basic_example sg cc) ∧
    generate_training_examples[110]? = complex_objects[0]?.map mk_advanced_example :=
  ⟨claim_C2.2.2.2.1 0 (by decide) 8 (by decide), claim_C2.2.2.2.2 0 (by decide)⟩

set_option maxRecDepth 100000 in
set_option maxHeartbeats 4000000 in
/-- C7: every fragment produced by either assembler binds the mesh to
the identifier `object`, contains both shadow-flag assignments with
value `true`, and contains the animation-hook assignment whose body is
the supplied animation expression — unconditionally, for all string
inputs; and over the whole generated corpus each fragment contains
exactly one assignment to `object.userData.animate`. -/
theorem claim_C7 :
    (∀ shape geometry color color_name : String,
       strHasB "const object = new THREE.Mesh(geometry, material);"
           (generate_code_template shape geometry color color_name) = true ∧
       strHasB "object.castShadow = true;"
           (generate_code_template shape geometry color color_name) = true ∧
       strHasB "object.receiveShadow = true;"
           (generate_code_template shape geometry color color_name) = true ∧
       strHasB (animate_hook (getD basic_animations shape
             "object.rotation.x += 0.01; object.rotation.y += 0.01;"))
           (generate_code_template shape geometry color color_name) = true) ∧
    (∀ shape geometry color effect : String,
       strHasB "const object = new THREE.Mesh(geometry, material);"
           (generate_advanced_code shape geometry color effect) = true ∧
       strHasB "object.castShadow = true;"
           (generate_advanced_code shape geometry color effect) = true ∧
       strHasB "object.receiveShadow = true;"
           (generate_advanced_code shape geometry color effect) = true ∧
       strHasB (animate_hook (advanced_strategy color effect).2)
           (generate_advanced_code shape geometry color effect) = true) ∧
    (∀ e ∈ generate_training_examples,
       countOcc ("object.userData.animate").data e.code.data = 1) := by
  refine ⟨fun shape geometry color color_name => ?_, fun shape geometry color effect => ?_, by decide⟩
  · rw [gct_decomp]
    exact ⟨strHasB_mid_tail _ _ _ (by decide), strHasB_mid_tail _ _ _ (by decide),
      strHasB_mid_tail _ _ _ (by decide), strHasB_hook_tail _ _⟩
  · rw [gac_decomp]
    exact ⟨strHasB_mid_tail _ _ _ (by decide), strHasB_mid_tail _ _ _ (by decide),
      strHasB_mid_tail _ _ _ (by decide), strHasB_hook_tail _ _⟩

set_option maxRecDepth 40000 in
/-- Witness for C7: the structural parts at concrete inputs, and the
single-hook count at the first generated example. -/
theorem claim_C7_witness :
    strHasB "const object = new THREE.Mesh(geometry, material);"
        (generate_code_template "sphere" "SphereGeometry" "0xffd700" "gold") = true ∧
    countOcc ("object.userData.animate").data
        (mk_basic_example ("sphere", "SphereGeometry") ("red", "0xff0000")).code.data = 1 :=
  ⟨(claim_C7.1 "sphere" "SphereGeometry" "0xffd700" "gold").1,
   claim_C7.2.2 (mk_basic_example ("sphere", "SphereGeometry") ("red", "0xff0000")) (by decide)⟩

end Taper
